import Mathlib

/-!
Verification of the position-sizing, order-plan and configuration logic of the
mt5-bot repository.  Python strings are embedded as lists of characters, Python
floats as exact rationals, and a Python exception escaping to a handler as an
`Option` that is `none`.
-/

/-- Python strings are modelled as lists of characters. -/
abbrev PyStr := List Char

/-- Python `s.endswith(t)`: `t` equals the last `len(t)` characters of `s`. -/
def endswith (s t : PyStr) : Bool := t == s.drop (s.length - t.length)

/-- Python `s.upper()` (ASCII, which covers every string this program compares). -/
def upperChars (s : PyStr) : PyStr := s.map Char.toUpper

/-- Python's built-in `round` to an integer: round half to even. -/
def pyRound (q : ℚ) : ℤ :=
  let f := ⌊q⌋
  let r := q - (f : ℚ)
  if r < 1/2 then f
  else if 1/2 < r then f + 1
  else if f % 2 = 0 then f else f + 1

/-- The symbol-metadata fields read by `calculate_safe_lot_size`
(src/test-function.py lines 45-49). -/
structure SymbolInfo where
  trade_tick_value : ℚ
  trade_tick_size : ℚ
  volume_min : ℚ
  volume_max : ℚ
  volume_step : ℚ

/-- The pip size used at src/test-function.py lines 52-54: `0.01` for symbols
ending in `JPY`, `0.0001` otherwise. -/
def pip_unit (symbol : PyStr) : ℚ :=
  if endswith symbol ['J', 'P', 'Y'] then 1/100 else 1/10000

/-- `pip_value` as computed at src/test-function.py lines 52-54 (the generic
assignment followed by the JPY overwrite collapses to one formula). -/
def pip_value (symbol : PyStr) (info : SymbolInfo) : ℚ :=
  info.trade_tick_value * (pip_unit symbol / info.trade_tick_size)

/-- `lot_size` before rounding, src/test-function.py line 56. -/
def raw_lot (symbol : PyStr) (info : SymbolInfo) (risk_amount stop_loss_pips : ℚ) : ℚ :=
  risk_amount / (stop_loss_pips * pip_value symbol info)

/-- `lot_size` after rounding to the lot step, src/test-function.py line 59. -/
def rounded_lot (symbol : PyStr) (info : SymbolInfo) (risk_amount stop_loss_pips : ℚ) : ℚ :=
  (pyRound (raw_lot symbol info risk_amount stop_loss_pips / info.volume_step) : ℚ) *
    info.volume_step

/-- The body of the `try` block of `calculate_safe_lot_size`
(src/test-function.py lines 41-64) once the symbol metadata has been read.
`none` models a `ZeroDivisionError` escaping to the handler: the pip-value
division raises when `trade_tick_size` is zero, the lot-size division raises
when `stop_loss_pips * pip_value` is zero, and the rounding division raises
when `volume_step` is zero. -/
def lot_size_body (symbol : PyStr) (info : SymbolInfo) (risk_amount stop_loss_pips : ℚ) :
    Option ℚ :=
  if info.trade_tick_size = 0 then none
  else if stop_loss_pips * pip_value symbol info = 0 then none
  else if info.volume_step = 0 then none
  else some (max info.volume_min
    (min (rounded_lot symbol info risk_amount stop_loss_pips) info.volume_max))

/-- `calculate_safe_lot_size` (src/test-function.py lines 28-68).
`symbol_found = false` models `mt5.symbol_info` returning `None`, in which case
the constant `0.01` is returned (line 43).  Otherwise the body runs; if it
raises, the handler returns the already-bound `min_lot` (line 68). -/
def calculate_safe_lot_size (symbol_found : Bool) (symbol : PyStr) (info : SymbolInfo)
    (risk_amount stop_loss_pips : ℚ) : ℚ :=
  if symbol_found then (lot_size_body symbol info risk_amount stop_loss_pips).getD info.volume_min
  else 1/100

/-- The order plan built by `place_test_order` (src/test-function.py
lines 103-122): entry price, stop loss, take profit, and whether the chosen
order type was `ORDER_TYPE_BUY`. -/
structure OrderPlan where
  price : ℚ
  sl : ℚ
  tp : ℚ
  isBuy : Bool

/-- The price/SL/TP derivation of `place_test_order` (src/test-function.py
lines 103-122), with the hard-coded `stop_loss_pips` left as a parameter.  A
direction is a buy exactly when its upper-cased form equals `BUY`; anything
else takes the `else` branch and is treated as a sell.  For symbols ending in
`JPY`, `stop_loss_pips` is multiplied by 100 and the levels are recomputed
with a pip of `0.01` (lines 114-122). -/
def place_test_order_plan (symbol order_type : PyStr) (bid ask stop_loss_pips : ℚ) :
    OrderPlan :=
  let isBuy := upperChars order_type == ['B', 'U', 'Y']
  let price := if isBuy then ask else bid
  let sl := if isBuy then price - stop_loss_pips * (1/10000)
            else price + stop_loss_pips * (1/10000)
  let tp := if isBuy then price + stop_loss_pips * 2 * (1/10000)
            else price - stop_loss_pips * 2 * (1/10000)
  if endswith symbol ['J', 'P', 'Y'] then
    let s2 := stop_loss_pips * 100
    { price := price
      sl := if isBuy then price - s2 * (1/100) else price + s2 * (1/100)
      tp := if isBuy then price + s2 * 2 * (1/100) else price - s2 * 2 * (1/100)
      isBuy := isBuy }
  else
    { price := price, sl := sl, tp := tp, isBuy := isBuy }

/-- A JSON-like value, the shape of the documents `ConfigManager` holds. -/
inductive JValue where
  | null : JValue
  | bool : Bool → JValue
  | num : ℚ → JValue
  | str : PyStr → JValue
  | arr : List JValue → JValue
  | obj : List (PyStr × JValue) → JValue

/-- Lookup of a key in a Python dict, modelled as an association list. -/
def lookupKV : List (PyStr × JValue) → PyStr → Option JValue
  | [], _ => none
  | (k2, v) :: rest, k => if k2 == k then some v else lookupKV rest k

/-- Python `d[k] = v` on a dict: replace the binding if the key is present,
append it otherwise. -/
def insertKV : List (PyStr × JValue) → PyStr → JValue → List (PyStr × JValue)
  | [], k, v => [(k, v)]
  | (k2, v2) :: rest, k, v =>
    if k2 == k then (k, v) :: rest else (k2, v2) :: insertKV rest k v

/-- Python `value[key]` inside `ConfigManager.get`: a dict lookup; on any
non-dict it raises `KeyError`/`TypeError`, modelled as `none`. -/
def jlookup : JValue → PyStr → Option JValue
  | JValue.obj fields, k => lookupKV fields k
  | _, _ => none

/-- The lookup loop of `ConfigManager.get` (src/config_manager.py
lines 100-106): follow the key list, `none` when any step raises. -/
def get_path : JValue → List PyStr → Option JValue
  | v, [] => some v
  | v, k :: ks =>
    match jlookup v k with
    | some u => get_path u ks
    | none => none

/-- Python `key_path.split('.')`; the accumulator holds the current segment
reversed. -/
def splitDotsAux : PyStr → PyStr → List PyStr
  | [], cur => [cur.reverse]
  | c :: cs, cur =>
    if c = '.' then cur.reverse :: splitDotsAux cs []
    else splitDotsAux cs (c :: cur)

/-- Python `key_path.split('.')`. -/
def splitDots (s : PyStr) : List PyStr := splitDotsAux s []

/-- `ConfigManager.get` (src/config_manager.py lines 88-108): follow the dot
path through the document; the `except (KeyError, TypeError)` handler returns
the caller-supplied default. -/
def ConfigManager.get (config : JValue) (key_path : PyStr) (dflt : JValue) : JValue :=
  (get_path config (splitDots key_path)).getD dflt

/-- The navigation-and-assignment of `ConfigManager.set` (src/config_manager.py
lines 121-133) on a key list.  At each intermediate key an absent entry is
replaced by a fresh empty dict; reaching a non-dict raises, which the `except`
handler turns into `False` — modelled as `none` (a failing `set` performs no
mutation, since creations only ever happen below other creations).  `some`
carries the updated document.  The key list from `split` is never empty, so the
empty case is dead code. -/
def set_path : JValue → List PyStr → JValue → Option JValue
  | _, [], _ => none
  | JValue.obj fields, [k], v => some (JValue.obj (insertKV fields k v))
  | JValue.obj fields, k :: k2 :: rest, v =>
    match set_path ((lookupKV fields k).getD (JValue.obj [])) (k2 :: rest) v with
    | some child => some (JValue.obj (insertKV fields k child))
    | none => none
  | _, _ :: _, _ => none

/-- `ConfigManager.set` (src/config_manager.py lines 110-137): `some config2`
models `True` with `config2` the updated document, `none` models `False`. -/
def ConfigManager.set (config : JValue) (key_path : PyStr) (v : JValue) : Option JValue :=
  set_path config (splitDots key_path) v

/-- The symbol hard-coded in the tests. -/
def strEURUSD : PyStr := ['E', 'U', 'R', 'U', 'S', 'D']

/-- A yen-quoted symbol. -/
def strUSDJPY : PyStr := ['U', 'S', 'D', 'J', 'P', 'Y']

/-- The EURUSD metadata of the specification's worked example. -/
def eurusdInfo : SymbolInfo :=
  { trade_tick_value := 1
    trade_tick_size := 1/100000
    volume_min := 1/100
    volume_max := 100
    volume_step := 1/100 }

/-- A direction string that is neither buy nor sell. -/
def strHOLD : PyStr := ['H', 'O', 'L', 'D']

/-- Metadata whose minimum volume is not aligned to the volume step:
step 2, minimum 1, maximum 10, pip value 1. -/
def stepInfo : SymbolInfo :=
  { trade_tick_value := 1
    trade_tick_size := 1/10000
    volume_min := 1
    volume_max := 10
    volume_step := 2 }

/-- Metadata with a zero tick size (the data the spec calls missing) and a
minimum volume different from 0.01. -/
def zeroTickInfo : SymbolInfo :=
  { trade_tick_value := 1
    trade_tick_size := 0
    volume_min := 1/2
    volume_max := 100
    volume_step := 1/100 }

/-- A one-entry configuration document used to exercise an absent path. -/
def cfgA : JValue := JValue.obj [(['a'], JValue.num 1)]

/-- The price distance that `place_test_order` puts between entry and stop
loss: for yen-quoted symbols `stop_loss_pips` is scaled by 100 and a pip of
0.01 is used, otherwise a pip of 0.0001 is used directly. -/
def plan_distance (symbol : PyStr) (stop_loss_pips : ℚ) : ℚ :=
  if endswith symbol ['J', 'P', 'Y'] then (stop_loss_pips * 100) * (1/100)
  else stop_loss_pips * (1/10000)

-- Theorems

theorem endswith_eurusd : endswith strEURUSD ['J', 'P', 'Y'] = false := rfl

theorem endswith_usdjpy : endswith strUSDJPY ['J', 'P', 'Y'] = true := rfl

theorem upper_buy : (upperChars ['B', 'U', 'Y'] == ['B', 'U', 'Y']) = true := rfl

theorem upper_sell : (upperChars ['S', 'E', 'L', 'L'] == ['B', 'U', 'Y']) = false := rfl

theorem pip_value_eurusd : pip_value strEURUSD eurusdInfo = 10 := by
  simp only [pip_value, pip_unit, endswith_eurusd]
  rw [show eurusdInfo.trade_tick_value = 1 from rfl,
    show eurusdInfo.trade_tick_size = 1/100000 from rfl]
  norm_num

theorem raw_lot_eurusd (r : ℚ) : raw_lot strEURUSD eurusdInfo r 50 = r / 500 := by
  simp only [raw_lot, pip_value_eurusd]
  norm_num

theorem rounded_lot_eurusd (r : ℚ) :
    rounded_lot strEURUSD eurusdInfo r 50 = (pyRound (r/5) : ℚ) * (1/100) := by
  simp only [rounded_lot, raw_lot_eurusd]
  rw [show eurusdInfo.volume_step = 1/100 from rfl]
  rw [show r / 500 / ((1:ℚ)/100) = r/5 from by ring]

theorem lot_size_body_eurusd (r : ℚ) :
    lot_size_body strEURUSD eurusdInfo r 50 =
      some (max (1/100) (min (rounded_lot strEURUSD eurusdInfo r 50) 100)) := by
  simp only [lot_size_body, pip_value_eurusd]
  rw [show eurusdInfo.trade_tick_size = 1/100000 from rfl,
    show eurusdInfo.volume_min = 1/100 from rfl,
    show eurusdInfo.volume_max = (100:ℚ) from rfl,
    show eurusdInfo.volume_step = 1/100 from rfl]
  norm_num

theorem calc_eurusd (r : ℚ) :
    calculate_safe_lot_size true strEURUSD eurusdInfo r 50 =
      max (1/100) (min (rounded_lot strEURUSD eurusdInfo r 50) 100) := by
  simp [calculate_safe_lot_size, lot_size_body_eurusd]

theorem pyRound_ten : pyRound 10 = 10 := by
  simp only [pyRound]
  norm_num

theorem pyRound_one : pyRound 1 = 1 := by
  simp only [pyRound]
  norm_num

theorem pyRound_neg_fifth : pyRound (-1/5) = 0 := by
  simp only [pyRound]
  norm_num

theorem pyRound_fiftieth : pyRound (1/50) = 0 := by
  simp only [pyRound]
  norm_num

theorem pyRound_five_halves : pyRound (5/2) = 2 := by
  simp only [pyRound]
  norm_num

/-- C5: on the spec's worked EURUSD example with risk 50 and 50 pips of stop,
the pip value is 10, the raw volume 0.1, the rounded volume 0.1, the body
succeeds, and the returned volume is 0.10 with no fallback. -/
theorem c5_eurusd_worked_example :
    pip_value strEURUSD eurusdInfo = 10 ∧
    raw_lot strEURUSD eurusdInfo 50 50 = 1/10 ∧
    rounded_lot strEURUSD eurusdInfo 50 50 = 1/10 ∧
    lot_size_body strEURUSD eurusdInfo 50 50 = some (1/10) ∧
    calculate_safe_lot_size true strEURUSD eurusdInfo 50 50 = 1/10 := by
  have hround : rounded_lot strEURUSD eurusdInfo 50 50 = 1/10 := by
    rw [rounded_lot_eurusd, show (50:ℚ)/5 = 10 from by norm_num, pyRound_ten]
    norm_num
  refine ⟨pip_value_eurusd, ?_, hround, ?_, ?_⟩
  · rw [raw_lot_eurusd]; norm_num
  · rw [lot_size_body_eurusd, hround]
    norm_num [max_def, min_def]
  · rw [calc_eurusd, hround]
    norm_num [max_def, min_def]

/-- C1 counterexample: with metadata whose minimum volume (1) is not aligned
to the volume step (2), positive bounds and step, risk 5 and stop 1, the
returned volume is 4, which is not the minimum plus an integer multiple of
the step. -/
theorem c1_counterexample :
    ((0:ℚ) < stepInfo.volume_min ∧ (0:ℚ) < stepInfo.volume_max ∧
      (0:ℚ) < stepInfo.volume_step ∧ (0:ℚ) < 5 ∧ (0:ℚ) < 1) ∧
    calculate_safe_lot_size true strEURUSD stepInfo 5 1 = 4 ∧
    ¬ ∃ k : ℤ, (4:ℚ) = stepInfo.volume_min + (k:ℚ) * stepInfo.volume_step := by
  have hpv : pip_value strEURUSD stepInfo = 1 := by
    simp only [pip_value, pip_unit, endswith_eurusd]
    rw [show stepInfo.trade_tick_value = 1 from rfl,
      show stepInfo.trade_tick_size = 1/10000 from rfl]
    norm_num
  have hraw : raw_lot strEURUSD stepInfo 5 1 = 5 := by
    simp only [raw_lot, hpv]
    norm_num
  have hround : rounded_lot strEURUSD stepInfo 5 1 = 4 := by
    simp only [rounded_lot, hraw]
    rw [show stepInfo.volume_step = 2 from rfl,
      show (5:ℚ)/2 = 5/2 from rfl, pyRound_five_halves]
    norm_num
  have hbody : lot_size_body strEURUSD stepInfo 5 1 = some 4 := by
    simp only [lot_size_body, hpv, hround]
    rw [show stepInfo.trade_tick_size = 1/10000 from rfl,
      show stepInfo.volume_min = 1 from rfl,
      show stepInfo.volume_max = (10:ℚ) from rfl,
      show stepInfo.volume_step = 2 from rfl]
    norm_num [max_def, min_def]
  refine ⟨⟨by norm_num [stepInfo], by norm_num [stepInfo], by norm_num [stepInfo],
    by norm_num, by norm_num⟩, ?_, ?_⟩
  · simp [calculate_safe_lot_size, hbody]
  · rintro ⟨k, hk⟩
    rw [show stepInfo.volume_min = 1 from rfl, show stepInfo.volume_step = 2 from rfl] at hk
    have h2 : (2 * k : ℤ) = 3 := by exact_mod_cast (by linarith : (2:ℚ) * (k:ℚ) = 3)
    omega

/-- C1 (amended): for positive minimum, maximum and step volumes with the
minimum not above the maximum, and positive risk and stop distance, the
returned volume lies in the inclusive interval between the volume bounds and
is the minimum volume, the maximum volume, or an integer multiple of the
volume step. -/
theorem c1_volume_range_and_step (symbol : PyStr) (info : SymbolInfo)
    (risk_amount stop_loss_pips : ℚ)
    (hmin : 0 < info.volume_min) (hmax : 0 < info.volume_max)
    (hstep : 0 < info.volume_step) (hmm : info.volume_min ≤ info.volume_max)
    (hr : 0 < risk_amount) (hs : 0 < stop_loss_pips) :
    info.volume_min ≤ calculate_safe_lot_size true symbol info risk_amount stop_loss_pips ∧
    calculate_safe_lot_size true symbol info risk_amount stop_loss_pips ≤ info.volume_max ∧
    (calculate_safe_lot_size true symbol info risk_amount stop_loss_pips = info.volume_min ∨
     calculate_safe_lot_size true symbol info risk_amount stop_loss_pips = info.volume_max ∨
     ∃ k : ℤ, calculate_safe_lot_size true symbol info risk_amount stop_loss_pips =
       (k:ℚ) * info.volume_step) := by
  cases hbody : lot_size_body symbol info risk_amount stop_loss_pips with
  | none =>
    have hc : calculate_safe_lot_size true symbol info risk_amount stop_loss_pips =
        info.volume_min := by
      simp [calculate_safe_lot_size, hbody]
    rw [hc]
    exact ⟨le_refl _, hmm, Or.inl rfl⟩
  | some v =>
    have hc : calculate_safe_lot_size true symbol info risk_amount stop_loss_pips = v := by
      simp [calculate_safe_lot_size, hbody]
    rw [hc]
    simp only [lot_size_body] at hbody
    split_ifs at hbody with h1 h2 h3
    have hv : v = max info.volume_min
        (min (rounded_lot symbol info risk_amount stop_loss_pips) info.volume_max) :=
      (Option.some.inj hbody).symm
    subst hv
    refine ⟨le_max_left _ _, max_le hmm (min_le_right _ _), ?_⟩
    rcases le_total (rounded_lot symbol info risk_amount stop_loss_pips) info.volume_max
      with h4 | h4
    · rw [min_eq_left h4]
      rcases le_total (rounded_lot symbol info risk_amount stop_loss_pips) info.volume_min
        with h5 | h5
      · exact Or.inl (max_eq_left h5)
      · refine Or.inr (Or.inr ⟨pyRound (raw_lot symbol info risk_amount stop_loss_pips /
          info.volume_step), ?_⟩)
        rw [max_eq_right h5]
        rfl
    · rw [min_eq_right h4]
      exact Or.inr (Or.inl (max_eq_right hmm))

/-- Witness for the amended C1 on the worked EURUSD example. -/
theorem c1_volume_range_and_step_witness :
    eurusdInfo.volume_min ≤ calculate_safe_lot_size true strEURUSD eurusdInfo 50 50 ∧
    calculate_safe_lot_size true strEURUSD eurusdInfo 50 50 ≤ eurusdInfo.volume_max ∧
    (calculate_safe_lot_size true strEURUSD eurusdInfo 50 50 = eurusdInfo.volume_min ∨
     calculate_safe_lot_size true strEURUSD eurusdInfo 50 50 = eurusdInfo.volume_max ∨
     ∃ k : ℤ, calculate_safe_lot_size true strEURUSD eurusdInfo 50 50 =
       (k:ℚ) * eurusdInfo.volume_step) :=
  c1_volume_range_and_step strEURUSD eurusdInfo 50 50 (by norm_num [eurusdInfo])
    (by norm_num [eurusdInfo]) (by norm_num [eurusdInfo]) (by norm_num [eurusdInfo])
    (by norm_num) (by norm_num)

/-- C3 counterexample: with the worked EURUSD metadata, risk −1 ≤ 0 and stop
50, the sizing body succeeds (no InvalidInput failure exists in the code) and
the clamped volume 0.01 is returned as a bare number. -/
theorem c3_counterexample :
    ((-1:ℚ) ≤ 0) ∧
    lot_size_body strEURUSD eurusdInfo (-1) 50 = some (1/100) ∧
    calculate_safe_lot_size true strEURUSD eurusdInfo (-1) 50 = 1/100 := by
  have hround : rounded_lot strEURUSD eurusdInfo (-1) 50 = 0 := by
    rw [rounded_lot_eurusd, show (-1:ℚ)/5 = -1/5 from rfl, pyRound_neg_fifth]
    norm_num
  refine ⟨by norm_num, ?_, ?_⟩
  · rw [lot_size_body_eurusd, hround]
    norm_num [max_def, min_def]
  · rw [calc_eurusd, hround]
    norm_num [max_def, min_def]

/-- C3 (amended): the sizing operation defines no error kinds.  When the tick
size is zero, the volume step is zero, or the lot-size denominator
`stop_loss_pips × pip_value` is zero, the internal division error is caught
and the symbol's minimum volume is returned as a bare volume, with nothing
surfacing that it is a fallback; non-positive risk or stop never produce an
error value at all. -/
theorem c3_no_error_kinds (symbol : PyStr) (info : SymbolInfo) (risk_amount stop_loss_pips : ℚ)
    (h : info.trade_tick_size = 0 ∨ info.volume_step = 0 ∨
      stop_loss_pips * pip_value symbol info = 0) :
    lot_size_body symbol info risk_amount stop_loss_pips = none ∧
    calculate_safe_lot_size true symbol info risk_amount stop_loss_pips = info.volume_min := by
  have hb : lot_size_body symbol info risk_amount stop_loss_pips = none := by
    simp only [lot_size_body]
    split_ifs with h1 h2 h3
    · rfl
    · rfl
    · rfl
    · tauto
  exact ⟨hb, by simp [calculate_safe_lot_size, hb]⟩

/-- Witness for the amended C3: zero tick size yields the bare minimum-volume
fallback 0.5. -/
theorem c3_no_error_kinds_witness :
    lot_size_body strEURUSD zeroTickInfo 50 50 = none ∧
    calculate_safe_lot_size true strEURUSD zeroTickInfo 50 50 = zeroTickInfo.volume_min :=
  c3_no_error_kinds strEURUSD zeroTickInfo 50 50 (Or.inl rfl)

/-- C4 counterexample: risk 0.1 rounds to volume 0 below the minimum and is
clamped to 0.01, while risk 5 computes exactly 0.01 in range; the two calls
return the same bare value, so the clamped-to-minimum case is not observable
by the caller. -/
theorem c4_counterexample :
    rounded_lot strEURUSD eurusdInfo (1/10) 50 < eurusdInfo.volume_min ∧
    eurusdInfo.volume_min ≤ rounded_lot strEURUSD eurusdInfo 5 50 ∧
    calculate_safe_lot_size true strEURUSD eurusdInfo (1/10) 50 =
      calculate_safe_lot_size true strEURUSD eurusdInfo 5 50 := by
  have hrA : rounded_lot strEURUSD eurusdInfo (1/10) 50 = 0 := by
    rw [rounded_lot_eurusd, show (1:ℚ)/10/5 = 1/50 from by norm_num, pyRound_fiftieth]
    norm_num
  have hrB : rounded_lot strEURUSD eurusdInfo 5 50 = 1/100 := by
    rw [rounded_lot_eurusd, show (5:ℚ)/5 = 1 from by norm_num, pyRound_one]
    norm_num
  refine ⟨?_, ?_, ?_⟩
  · rw [hrA, show eurusdInfo.volume_min = 1/100 from rfl]; norm_num
  · rw [hrB, show eurusdInfo.volume_min = 1/100 from rfl]
  · rw [calc_eurusd, calc_eurusd, hrA, hrB]
    norm_num [max_def, min_def]

/-- C4 (amended): when the rounded raw volume falls below the minimum volume
the result is clamped to the minimum volume, but it is returned as a bare
volume indistinguishable from an exact in-range computation. -/
theorem c4_clamp_to_min (symbol : PyStr) (info : SymbolInfo) (risk_amount stop_loss_pips : ℚ)
    (h1 : info.trade_tick_size ≠ 0) (h2 : info.volume_step ≠ 0)
    (h3 : stop_loss_pips * pip_value symbol info ≠ 0)
    (h4 : rounded_lot symbol info risk_amount stop_loss_pips < info.volume_min) :
    calculate_safe_lot_size true symbol info risk_amount stop_loss_pips = info.volume_min := by
  simp only [calculate_safe_lot_size, lot_size_body, if_neg h1, if_neg h3, if_neg h2,
    if_true, Option.getD]
  exact max_eq_left (le_of_lt (lt_of_le_of_lt (min_le_left _ _) h4))

/-- Witness for the amended C4 at risk 0.1 on the worked EURUSD metadata. -/
theorem c4_clamp_to_min_witness :
    calculate_safe_lot_size true strEURUSD eurusdInfo (1/10) 50 = eurusdInfo.volume_min :=
  c4_clamp_to_min strEURUSD eurusdInfo (1/10) 50
    (by norm_num [eurusdInfo]) (by norm_num [eurusdInfo])
    (by rw [pip_value_eurusd]; norm_num)
    (by rw [rounded_lot_eurusd, show (1:ℚ)/10/5 = 1/50 from by norm_num, pyRound_fiftieth,
          show eurusdInfo.volume_min = 1/100 from rfl]
        norm_num)

/-- C10: the sizing operation is total and never propagates an exception:
whenever the body fails (any caught internal error) the call with the symbol
metadata in scope returns that symbol's minimum volume, and the call for an
unknown symbol returns the constant 0.01 regardless of the metadata's actual
minimum. -/
theorem c10_total_with_fallbacks (symbol : PyStr) (info : SymbolInfo)
    (risk_amount stop_loss_pips : ℚ)
    (h : lot_size_body symbol info risk_amount stop_loss_pips = none) :
    calculate_safe_lot_size true symbol info risk_amount stop_loss_pips = info.volume_min ∧
    calculate_safe_lot_size false symbol info risk_amount stop_loss_pips = 1/100 := by
  exact ⟨by simp [calculate_safe_lot_size, h], by simp [calculate_safe_lot_size]⟩

/-- Witness for C10: zero tick size makes the body fail; the known-symbol call
returns the metadata's minimum 0.5 (not 0.01), the unknown-symbol call 0.01. -/
theorem c10_total_with_fallbacks_witness :
    calculate_safe_lot_size true strEURUSD zeroTickInfo 1 1 = zeroTickInfo.volume_min ∧
    calculate_safe_lot_size false strEURUSD zeroTickInfo 1 1 = 1/100 :=
  c10_total_with_fallbacks strEURUSD zeroTickInfo 1 1
    (by simp only [lot_size_body]
        rw [if_pos (show zeroTickInfo.trade_tick_size = 0 from rfl)])

theorem upper_hold : (upperChars strHOLD == ['B', 'U', 'Y']) = false := rfl

theorem plan_levels_buy (symbol order_type : PyStr) (bid ask stop_loss_pips : ℚ)
    (h : (upperChars order_type == ['B', 'U', 'Y']) = true) :
    (place_test_order_plan symbol order_type bid ask stop_loss_pips).isBuy = true ∧
    (place_test_order_plan symbol order_type bid ask stop_loss_pips).price = ask ∧
    (place_test_order_plan symbol order_type bid ask stop_loss_pips).sl =
      ask - plan_distance symbol stop_loss_pips ∧
    (place_test_order_plan symbol order_type bid ask stop_loss_pips).tp =
      ask + 2 * plan_distance symbol stop_loss_pips := by
  rcases Bool.eq_false_or_eq_true (endswith symbol ['J', 'P', 'Y']) with hj | hj <;>
    refine ⟨?_, ?_, ?_, ?_⟩ <;>
    simp [place_test_order_plan, plan_distance, h, hj] <;> ring

theorem plan_levels_sell (symbol order_type : PyStr) (bid ask stop_loss_pips : ℚ)
    (h : (upperChars order_type == ['B', 'U', 'Y']) = false) :
    (place_test_order_plan symbol order_type bid ask stop_loss_pips).isBuy = false ∧
    (place_test_order_plan symbol order_type bid ask stop_loss_pips).price = bid ∧
    (place_test_order_plan symbol order_type bid ask stop_loss_pips).sl =
      bid + plan_distance symbol stop_loss_pips ∧
    (place_test_order_plan symbol order_type bid ask stop_loss_pips).tp =
      bid - 2 * plan_distance symbol stop_loss_pips := by
  rcases Bool.eq_false_or_eq_true (endswith symbol ['J', 'P', 'Y']) with hj | hj <;>
    refine ⟨?_, ?_, ?_, ?_⟩ <;>
    simp [place_test_order_plan, plan_distance, h, hj] <;> ring

theorem plan_distance_pos (symbol : PyStr) (stop_loss_pips : ℚ) (hs : 0 < stop_loss_pips) :
    0 < plan_distance symbol stop_loss_pips := by
  simp only [plan_distance]
  split_ifs
  · exact mul_pos (mul_pos hs (by norm_num)) (by norm_num)
  · exact mul_pos hs (by norm_num)

/-- C2: for positive prices and positive stop distance, the buy plan has
stop loss below entry below take profit, the sell plan has take profit below
entry below stop loss, and in both the take-profit distance is twice the
stop-loss distance. -/
theorem c2_plan_side_and_ratio (symbol : PyStr) (bid ask stop_loss_pips : ℚ)
    (hb : 0 < bid) (ha : 0 < ask) (hs : 0 < stop_loss_pips) :
    ((place_test_order_plan symbol ['B', 'U', 'Y'] bid ask stop_loss_pips).sl <
       (place_test_order_plan symbol ['B', 'U', 'Y'] bid ask stop_loss_pips).price ∧
     (place_test_order_plan symbol ['B', 'U', 'Y'] bid ask stop_loss_pips).price <
       (place_test_order_plan symbol ['B', 'U', 'Y'] bid ask stop_loss_pips).tp ∧
     |(place_test_order_plan symbol ['B', 'U', 'Y'] bid ask stop_loss_pips).tp -
       (place_test_order_plan symbol ['B', 'U', 'Y'] bid ask stop_loss_pips).price| =
       2 * |(place_test_order_plan symbol ['B', 'U', 'Y'] bid ask stop_loss_pips).price -
       (place_test_order_plan symbol ['B', 'U', 'Y'] bid ask stop_loss_pips).sl|) ∧
    ((place_test_order_plan symbol ['S', 'E', 'L', 'L'] bid ask stop_loss_pips).tp <
       (place_test_order_plan symbol ['S', 'E', 'L', 'L'] bid ask stop_loss_pips).price ∧
     (place_test_order_plan symbol ['S', 'E', 'L', 'L'] bid ask stop_loss_pips).price <
       (place_test_order_plan symbol ['S', 'E', 'L', 'L'] bid ask stop_loss_pips).sl ∧
     |(place_test_order_plan symbol ['S', 'E', 'L', 'L'] bid ask stop_loss_pips).tp -
       (place_test_order_plan symbol ['S', 'E', 'L', 'L'] bid ask stop_loss_pips).price| =
       2 * |(place_test_order_plan symbol ['S', 'E', 'L', 'L'] bid ask stop_loss_pips).price -
       (place_test_order_plan symbol ['S', 'E', 'L', 'L'] bid ask stop_loss_pips).sl|) := by
  have hd := plan_distance_pos symbol stop_loss_pips hs
  obtain ⟨-, hp, hsl, htp⟩ :=
    plan_levels_buy symbol ['B', 'U', 'Y'] bid ask stop_loss_pips upper_buy
  obtain ⟨-, hp2, hsl2, htp2⟩ :=
    plan_levels_sell symbol ['S', 'E', 'L', 'L'] bid ask stop_loss_pips upper_sell
  constructor
  · refine ⟨?_, ?_, ?_⟩
    · rw [hsl, hp]; linarith
    · rw [htp, hp]; linarith
    · rw [htp, hp, hsl]
      rw [show ask + 2 * plan_distance symbol stop_loss_pips - ask =
          2 * plan_distance symbol stop_loss_pips from by ring,
        show ask - (ask - plan_distance symbol stop_loss_pips) =
          plan_distance symbol stop_loss_pips from by ring,
        abs_of_pos (by linarith), abs_of_pos hd]
  · refine ⟨?_, ?_, ?_⟩
    · rw [htp2, hp2]; linarith
    · rw [hsl2, hp2]; linarith
    · rw [htp2, hp2, hsl2]
      rw [show bid - 2 * plan_distance symbol stop_loss_pips - bid =
          -(2 * plan_distance symbol stop_loss_pips) from by ring,
        show bid - (bid + plan_distance symbol stop_loss_pips) =
          -(plan_distance symbol stop_loss_pips) from by ring,
        abs_neg, abs_neg, abs_of_pos (by linarith), abs_of_pos hd]

/-- Witness for C2 at symbol EURUSD, bid 1, ask 2, stop 50. -/
theorem c2_plan_side_and_ratio_witness :
    ((place_test_order_plan strEURUSD ['B', 'U', 'Y'] 1 2 50).sl <
       (place_test_order_plan strEURUSD ['B', 'U', 'Y'] 1 2 50).price ∧
     (place_test_order_plan strEURUSD ['B', 'U', 'Y'] 1 2 50).price <
       (place_test_order_plan strEURUSD ['B', 'U', 'Y'] 1 2 50).tp ∧
     |(place_test_order_plan strEURUSD ['B', 'U', 'Y'] 1 2 50).tp -
       (place_test_order_plan strEURUSD ['B', 'U', 'Y'] 1 2 50).price| =
       2 * |(place_test_order_plan strEURUSD ['B', 'U', 'Y'] 1 2 50).price -
       (place_test_order_plan strEURUSD ['B', 'U', 'Y'] 1 2 50).sl|) ∧
    ((place_test_order_plan strEURUSD ['S', 'E', 'L', 'L'] 1 2 50).tp <
       (place_test_order_plan strEURUSD ['S', 'E', 'L', 'L'] 1 2 50).price ∧
     (place_test_order_plan strEURUSD ['S', 'E', 'L', 'L'] 1 2 50).price <
       (place_test_order_plan strEURUSD ['S', 'E', 'L', 'L'] 1 2 50).sl ∧
     |(place_test_order_plan strEURUSD ['S', 'E', 'L', 'L'] 1 2 50).tp -
       (place_test_order_plan strEURUSD ['S', 'E', 'L', 'L'] 1 2 50).price| =
       2 * |(place_test_order_plan strEURUSD ['S', 'E', 'L', 'L'] 1 2 50).price -
       (place_test_order_plan strEURUSD ['S', 'E', 'L', 'L'] 1 2 50).sl|) :=
  c2_plan_side_and_ratio strEURUSD 1 2 50 (by norm_num) (by norm_num) (by norm_num)

/-- C6: the buy plan sits `plan_distance` below/above the ask, the sell plan
mirrors it around the bid, and the distance is `(stop_loss_pips × 100) × 0.01`
for yen-quoted symbols (the ×100 rescale followed by the 0.01 pip) and
`stop_loss_pips × 0.0001` otherwise. -/
theorem c6_pip_distance (symbol : PyStr) (bid ask stop_loss_pips : ℚ) :
    (place_test_order_plan symbol ['B', 'U', 'Y'] bid ask stop_loss_pips).sl =
      ask - plan_distance symbol stop_loss_pips ∧
    (place_test_order_plan symbol ['B', 'U', 'Y'] bid ask stop_loss_pips).tp =
      ask + 2 * plan_distance symbol stop_loss_pips ∧
    (place_test_order_plan symbol ['S', 'E', 'L', 'L'] bid ask stop_loss_pips).sl =
      bid + plan_distance symbol stop_loss_pips ∧
    (place_test_order_plan symbol ['S', 'E', 'L', 'L'] bid ask stop_loss_pips).tp =
      bid - 2 * plan_distance symbol stop_loss_pips ∧
    plan_distance symbol stop_loss_pips =
      (if endswith symbol ['J', 'P', 'Y'] then (100 * stop_loss_pips) * (1/100)
       else stop_loss_pips * (1/10000)) := by
  obtain ⟨-, -, hsl, htp⟩ :=
    plan_levels_buy symbol ['B', 'U', 'Y'] bid ask stop_loss_pips upper_buy
  obtain ⟨-, -, hsl2, htp2⟩ :=
    plan_levels_sell symbol ['S', 'E', 'L', 'L'] bid ask stop_loss_pips upper_sell
  refine ⟨hsl, htp, hsl2, htp2, ?_⟩
  simp only [plan_distance]
  split_ifs
  · ring
  · ring

/-- C7 counterexample: for the direction string HOLD, which is neither buy nor
sell, a complete sell order plan is still produced — there is no
InvalidDirection failure. -/
theorem c7_counterexample :
    place_test_order_plan strEURUSD strHOLD 1 2 50 =
      { price := 1
        sl := 1 + 50 * (1/10000)
        tp := 1 - 50 * 2 * (1/10000)
        isBuy := false } := by
  simp [place_test_order_plan, upper_hold, endswith_eurusd]

/-- C7 (amended): order-plan derivation never fails on the direction: any
direction whose upper-cased form is not BUY takes the else branch and yields
exactly the sell plan. -/
theorem c7_non_buy_treated_as_sell (symbol order_type : PyStr) (bid ask stop_loss_pips : ℚ)
    (h : (upperChars order_type == ['B', 'U', 'Y']) = false) :
    place_test_order_plan symbol order_type bid ask stop_loss_pips =
      place_test_order_plan symbol ['S', 'E', 'L', 'L'] bid ask stop_loss_pips ∧
    (place_test_order_plan symbol order_type bid ask stop_loss_pips).isBuy = false := by
  constructor
  · simp [place_test_order_plan, h, upper_sell]
  · rcases Bool.eq_false_or_eq_true (endswith symbol ['J', 'P', 'Y']) with hj | hj <;>
      simp [place_test_order_plan, h, hj]

/-- Witness for the amended C7 at direction HOLD. -/
theorem c7_non_buy_treated_as_sell_witness :
    (place_test_order_plan strEURUSD strHOLD 1 2 50 =
      place_test_order_plan strEURUSD ['S', 'E', 'L', 'L'] 1 2 50) ∧
    (place_test_order_plan strEURUSD strHOLD 1 2 50).isBuy = false :=
  c7_non_buy_treated_as_sell strEURUSD strHOLD 1 2 50 upper_hold

/-- C8: a `get` whose dot path is absent from the document (the lookup loop
raises, modelled by `get_path` returning `none`) returns the caller-supplied
default; the failure is swallowed, never surfaced. -/
theorem c8_get_absent_default (config : JValue) (key_path : PyStr) (dflt : JValue)
    (h : get_path config (splitDots key_path) = none) :
    ConfigManager.get config key_path dflt = dflt := by
  simp [ConfigManager.get, h]

/-- Witness for C8: path `b` is absent from a document holding only `a`. -/
theorem c8_get_absent_default_witness :
    ConfigManager.get cfgA ['b'] (JValue.num 7) = JValue.num 7 :=
  c8_get_absent_default cfgA ['b'] (JValue.num 7) rfl

theorem lookup_insert (fields : List (PyStr × JValue)) (k : PyStr) (v : JValue) :
    lookupKV (insertKV fields k v) k = some v := by
  induction fields with
  | nil => simp [insertKV, lookupKV]
  | cons p rest ih =>
    obtain ⟨k2, v2⟩ := p
    by_cases h : (k2 == k) = true
    · simp [insertKV, lookupKV, h]
    · simp [insertKV, lookupKV, h, ih]

theorem get_path_cons (c : JValue) (k : PyStr) (ks : List PyStr) :
    get_path c (k :: ks) =
      match jlookup c k with
      | some u => get_path u ks
      | none => none := rfl

theorem get_after_set_aux : ∀ (ks : List PyStr) (c c2 v : JValue),
    set_path c ks v = some c2 → get_path c2 ks = some v := by
  intro ks
  induction ks with
  | nil =>
    intro c c2 v h
    simp [set_path] at h
  | cons k ks2 ih =>
    intro c c2 v h
    cases ks2 with
    | nil =>
      cases c with
      | obj fields =>
        rw [show set_path (JValue.obj fields) [k] v =
          some (JValue.obj (insertKV fields k v)) from rfl] at h
        obtain rfl := Option.some.inj h
        have hj : jlookup (JValue.obj (insertKV fields k v)) k = some v :=
          lookup_insert fields k v
        rw [get_path_cons, hj]
        rfl
      | null => simp [set_path] at h
      | bool b => simp [set_path] at h
      | num q => simp [set_path] at h
      | str s => simp [set_path] at h
      | arr xs => simp [set_path] at h
    | cons k2 rest =>
      cases c with
      | obj fields =>
        simp only [set_path] at h
        cases hsp : set_path ((lookupKV fields k).getD (JValue.obj [])) (k2 :: rest) v with
        | none => rw [hsp] at h; simp at h
        | some child =>
          rw [hsp] at h
          have h2 : JValue.obj (insertKV fields k child) = c2 := Option.some.inj h
          obtain rfl := h2
          have hj : jlookup (JValue.obj (insertKV fields k child)) k = some child :=
            lookup_insert fields k child
          rw [get_path_cons, hj]
          exact ih _ _ _ hsp
      | null => simp [set_path] at h
      | bool b => simp [set_path] at h
      | num q => simp [set_path] at h
      | str s => simp [set_path] at h
      | arr xs => simp [set_path] at h

/-- C9: get after set round trip: whenever `set` succeeds (returning the
updated document, i.e. Python `True`), a subsequent `get` of the same dot path
returns the value just set, for every default. -/
theorem c9_get_after_set (config : JValue) (key_path : PyStr) (v config2 dflt : JValue)
    (h : ConfigManager.set config key_path v = some config2) :
    ConfigManager.get config2 key_path dflt = v := by
  have h0 : set_path config (splitDots key_path) v = some config2 := h
  have h2 := get_after_set_aux (splitDots key_path) config config2 v h0
  simp [ConfigManager.get, h2]

/-- Witness for C9: setting `a.b` to 5 in the empty document then reading
`a.b` back yields 5. -/
theorem c9_get_after_set_witness :
    ConfigManager.get (JValue.obj [(['a'], JValue.obj [(['b'], JValue.num 5)])])
      ['a', '.', 'b'] (JValue.num 0) = JValue.num 5 :=
  c9_get_after_set (JValue.obj []) ['a', '.', 'b'] (JValue.num 5)
    (JValue.obj [(['a'], JValue.obj [(['b'], JValue.num 5)])]) (JValue.num 0) rfl
